import Mathlib

/-!
Shallow embedding of the cryptobot_api_gateway broker bridge.

The embedding follows `internal/messaging` (the `MessageClient` STOMP
session), the command handlers of `internal/gateway`, and — where the
websocket Hub source is absent from the repository snapshot — the Hub
contract as specified.  Calls into external collaborators (the TCP dial,
the STOMP library's Subscribe/Send/Unsubscribe, `json.Marshal`) are
modelled by explicit oracle parameters: a `Bool` that says whether the
external call succeeded, and an `Option String` for the serializer's
output.
-/

namespace Messaging

/-- The typed errors produced by `MessageClient`'s operations, one
constructor per `fmt.Errorf` site in the source.  `notConnected` is the
spec's `BrokerUnavailable`; `encodingError` is the spec's
`EncodingError`. -/
inductive MCError where
  | dialFailed
  | stompFailed
  | notConnected
  | alreadySubscribed (topic : String)
  | subscribeFailed (topic : String)
  | encodingError
  | sendFailed (destination : String)
  | notSubscribed (topic : String)
  | unsubscribeFailed (topic : String)
  deriving DecidableEq, Repr

/-- The state of a `MessageClient`: `connSome` models `conn != nil`,
`connected` the boolean flag, `subscriptions` the key set of the
`map[string]*stomp.Subscription`, and `url` the stored broker URL. -/
structure MessageClient where
  connSome : Bool
  connected : Bool
  subscriptions : List String
  url : String
  deriving DecidableEq, Repr

/-- `IsConnected` from the source: `mc.connected && mc.conn != nil`. -/
def IsConnected (mc : MessageClient) : Bool :=
  mc.connected && mc.connSome

/-- The host and port handed to `net.DialTimeout` by `connect`. -/
structure DialAddr where
  host : String
  port : String
  deriving DecidableEq, Repr

/-- `connect` from the source: assigns the hard-coded host
`"artemis-service"` and STOMP port `"61613"`, dials (oracle `dialOk`),
establishes the STOMP session (oracle `stompOk`), and on success stores
the connection and sets the connected flag.  Returns the result paired
with the address that was dialed. -/
def connect (mc : MessageClient) (dialOk : Bool) (stompOk : Bool) :
    Except MCError MessageClient × DialAddr :=
  let host := "artemis-service"
  let port := "61613"
  let addr : DialAddr := ⟨host, port⟩
  if !dialOk then
    (.error .dialFailed, addr)
  else if !stompOk then
    (.error .stompFailed, addr)
  else
    (.ok { mc with connSome := true, connected := true }, addr)

/-- `NewMessageClient` from the source: builds the empty client around
`brokerURL` and runs `connect`; any connect error is returned and no
client is produced. -/
def NewMessageClient (brokerURL : String) (dialOk : Bool) (stompOk : Bool) :
    Except MCError MessageClient :=
  let client : MessageClient :=
    { connSome := false, connected := false, subscriptions := [], url := brokerURL }
  (connect client dialOk stompOk).1

/-- A freshly and successfully constructed client: connected, with no
subscriptions, holding the given broker URL. -/
def initClient (brokerURL : String) : MessageClient :=
  { connSome := true, connected := true, subscriptions := [], url := brokerURL }

/-- A frame handed to the STOMP transport by `conn.Send`. -/
structure SendFrame where
  destination : String
  contentType : String
  body : String
  deriving DecidableEq, Repr

/-- The observable effects of one publish call: the serializer producing
bytes, and a frame being handed to the transport. -/
inductive PubEffect where
  | marshalled (data : String)
  | sent (frame : SendFrame)
  deriving DecidableEq, Repr

/-- `PublishToQueue` from the source: returns an error before touching
the serializer when not connected; then `json.Marshal` (oracle
`marshal`, `none` = serialization failure); then `conn.Send` (oracle
`sendOk`).  The second component is the list of effects performed. -/
def PublishToQueue (mc : MessageClient) (queue : String)
    (marshal : Option String) (sendOk : Bool) :
    Except MCError Unit × List PubEffect :=
  if !(IsConnected mc) then
    (.error .notConnected, [])
  else
    match marshal with
    | none => (.error .encodingError, [])
    | some data =>
      let frame : SendFrame := ⟨queue, "application/json", data⟩
      if !sendOk then
        (.error (.sendFailed queue), [.marshalled data, .sent frame])
      else
        (.ok (), [.marshalled data, .sent frame])

/-- `PublishToTopic` from the source: identical structure to
`PublishToQueue` with a topic destination. -/
def PublishToTopic (mc : MessageClient) (topic : String)
    (marshal : Option String) (sendOk : Bool) :
    Except MCError Unit × List PubEffect :=
  if !(IsConnected mc) then
    (.error .notConnected, [])
  else
    match marshal with
    | none => (.error .encodingError, [])
    | some data =>
      let frame : SendFrame := ⟨topic, "application/json", data⟩
      if !sendOk then
        (.error (.sendFailed topic), [.marshalled data, .sent frame])
      else
        (.ok (), [.marshalled data, .sent frame])

/-- `SubscribeToTopic` from the source, up to starting the consumer
goroutine: connectivity guard, duplicate-subscription guard,
`conn.Subscribe` (oracle `subOk`), then insertion of the topic into the
subscription map. -/
def SubscribeToTopic (mc : MessageClient) (topic : String) (subOk : Bool) :
    Except MCError Unit × MessageClient :=
  if !(IsConnected mc) then
    (.error .notConnected, mc)
  else if topic ∈ mc.subscriptions then
    (.error (.alreadySubscribed topic), mc)
  else if !subOk then
    (.error (.subscribeFailed topic), mc)
  else
    (.ok (), { mc with subscriptions := topic :: mc.subscriptions })

/-- `Unsubscribe` from the source: membership guard, then the STOMP
`sub.Unsubscribe()` (oracle `unsubOk`); on transport failure the error
is returned before the `delete`, so the topic stays in the map. -/
def Unsubscribe (mc : MessageClient) (topic : String) (unsubOk : Bool) :
    Except MCError Unit × MessageClient :=
  if topic ∈ mc.subscriptions then
    if !unsubOk then
      (.error (.unsubscribeFailed topic), mc)
    else
      (.ok (), { mc with subscriptions := mc.subscriptions.filter (· != topic) })
  else
    (.error (.notSubscribed topic), mc)

/-- The cleanup path of the consumer goroutine in `SubscribeToTopic`:
after the receive loop breaks, the topic is deleted from the
subscription map. -/
def consumerTeardown (mc : MessageClient) (topic : String) : MessageClient :=
  { mc with subscriptions := mc.subscriptions.filter (· != topic) }

/-- `Close` from the source: early return when already disconnected or
never connected; otherwise every subscription is removed (the STOMP
unsubscribe result is ignored there), the transport is disconnected and
the connected flag cleared.  `conn` itself is not nilled. -/
def Close (mc : MessageClient) : MessageClient :=
  if !mc.connected || !mc.connSome then
    mc
  else
    { mc with subscriptions := [], connected := false }

/-- The operations a caller (or a consumer goroutine's cleanup) can
apply to a live `MessageClient`; `connect` is private to
`NewMessageClient` and hence not among them. -/
inductive Op where
  | subscribe (topic : String) (subOk : Bool)
  | unsubscribe (topic : String) (unsubOk : Bool)
  | publishQueue (queue : String) (marshal : Option String) (sendOk : Bool)
  | publishTopic (topic : String) (marshal : Option String) (sendOk : Bool)
  | consumerError (topic : String)
  | close
  deriving DecidableEq, Repr

/-- The state transition of one operation.  Publishing never mutates the
client; a transport receive error in a consumer goroutine removes that
topic. -/
def step (mc : MessageClient) : Op → MessageClient
  | .subscribe t subOk => (SubscribeToTopic mc t subOk).2
  | .unsubscribe t unsubOk => (Unsubscribe mc t unsubOk).2
  | .publishQueue _ _ _ => mc
  | .publishTopic _ _ _ => mc
  | .consumerError t => consumerTeardown mc t
  | .close => Close mc

/-- Running a sequence of operations from a state. -/
def run (mc : MessageClient) (ops : List Op) : MessageClient :=
  ops.foldl step mc

/-- The state invariant maintained by every operation: the subscription
map never holds a topic twice, and a client that is not connected holds
no subscriptions at all. -/
def Inv (mc : MessageClient) : Prop :=
  mc.subscriptions.Nodup ∧ (IsConnected mc = false → mc.subscriptions = [])

theorem IsConnected_withSubs (mc : MessageClient) (l : List String) :
    IsConnected { mc with subscriptions := l } = IsConnected mc := rfl

theorem inv_init (brokerURL : String) : Inv (initClient brokerURL) :=
  ⟨List.nodup_nil, fun _ => rfl⟩

theorem inv_step (mc : MessageClient) (op : Op) (h : Inv mc) : Inv (step mc op) := by
  obtain ⟨hnd, hconn⟩ := h
  cases op with
  | subscribe t subOk =>
    simp only [step, SubscribeToTopic]
    split
    · exact ⟨hnd, hconn⟩
    · split
      · exact ⟨hnd, hconn⟩
      · split
        · exact ⟨hnd, hconn⟩
        · rename_i hc hmem _
          refine ⟨List.Nodup.cons hmem hnd, fun hfalse => ?_⟩
          rw [IsConnected_withSubs] at hfalse
          simp [hfalse] at hc
  | unsubscribe t unsubOk =>
    simp only [step, Unsubscribe]
    split
    · split
      · exact ⟨hnd, hconn⟩
      · refine ⟨List.Nodup.filter _ hnd, fun hfalse => ?_⟩
        rw [IsConnected_withSubs] at hfalse
        simp [hconn hfalse]
    · exact ⟨hnd, hconn⟩
  | publishQueue q m sOk => exact ⟨hnd, hconn⟩
  | publishTopic t m sOk => exact ⟨hnd, hconn⟩
  | consumerError t =>
    refine ⟨List.Nodup.filter _ hnd, fun hfalse => ?_⟩
    rw [show step mc (Op.consumerError t) = { mc with
      subscriptions := mc.subscriptions.filter (· != t) } from rfl] at hfalse ⊢
    rw [IsConnected_withSubs] at hfalse
    simp [hconn hfalse]
  | close =>
    simp only [step, Close]
    split
    · exact ⟨hnd, hconn⟩
    · exact ⟨List.nodup_nil, fun _ => rfl⟩

theorem inv_run (mc : MessageClient) (ops : List Op) (h : Inv mc) : Inv (run mc ops) := by
  induction ops generalizing mc with
  | nil => exact h
  | cons op rest ih => exact ih _ (inv_step mc op h)

theorem inv_reachable (brokerURL : String) (ops : List Op) :
    Inv (run (initClient brokerURL) ops) :=
  inv_run _ _ (inv_init brokerURL)

theorem isConnected_false_step (mc : MessageClient) (op : Op)
    (h : IsConnected mc = false) : IsConnected (step mc op) = false := by
  cases op with
  | subscribe t subOk => simp [step, SubscribeToTopic, h]
  | unsubscribe t unsubOk =>
    simp only [step, Unsubscribe]
    split
    · split
      · exact h
      · rw [IsConnected_withSubs]; exact h
    · exact h
  | publishQueue q m sOk => exact h
  | publishTopic t m sOk => exact h
  | consumerError t =>
    rw [show step mc (Op.consumerError t) = { mc with
      subscriptions := mc.subscriptions.filter (· != t) } from rfl]
    rw [IsConnected_withSubs]; exact h
  | close =>
    simp only [step, Close]
    split
    · exact h
    · simp [IsConnected]

theorem isConnected_false_run (mc : MessageClient) (ops : List Op)
    (h : IsConnected mc = false) : IsConnected (run mc ops) = false := by
  induction ops generalizing mc with
  | nil => exact h
  | cons op rest ih => exact ih _ (isConnected_false_step mc op h)

theorem isConnected_close (mc : MessageClient) : IsConnected (Close mc) = false := by
  cases mc with
  | mk connSome connected subs url =>
    cases connSome <;> cases connected <;> simp [Close, IsConnected]

theorem close_close (mc : MessageClient) : Close (Close mc) = Close mc := by
  cases mc with
  | mk connSome connected subs url =>
    cases connSome <;> cases connected <;> simp [Close]

theorem close_subscriptions (mc : MessageClient) (h : Inv mc) :
    (Close mc).subscriptions = [] := by
  rcases hcb : mc.connected with _ | _
  · rw [show Close mc = mc by simp [Close, hcb]]
    exact h.2 (by simp [IsConnected, hcb])
  · rcases hcs : mc.connSome with _ | _
    · rw [show Close mc = mc by simp [Close, hcs]]
      exact h.2 (by simp [IsConnected, hcs])
    · simp [Close, hcb, hcs]

/-- One delivery on a subscription's channel `sub.C`: either a frame
whose `Err` field is set (a transport-level receive error) or a message
body. -/
inductive Inbound where
  | recvError
  | msg (body : String)
  deriving DecidableEq, Repr

/-- What the consumer goroutine did with one delivery, mirroring its
three logging sites. -/
inductive ConsumerEvent where
  | handledOk (body : String)
  | handlerError (body : String)
  | receiveError
  deriving DecidableEq, Repr

/-- The receive loop of the consumer goroutine in `SubscribeToTopic`:
for each delivery, a set `msg.Err` logs and breaks the loop; otherwise
the handler runs on the body (oracle `handler`, `true` = nil error) and
a handler error is logged without leaving the loop.  Returns the event
log and whether the loop broke (after which the cleanup deletes the
subscription). -/
def consumerRun (handler : String → Bool) : List Inbound → List ConsumerEvent × Bool
  | [] => ([], false)
  | .recvError :: _ => ([.receiveError], true)
  | .msg b :: rest =>
    let r := consumerRun handler rest
    ((if handler b then ConsumerEvent.handledOk b else ConsumerEvent.handlerError b) :: r.1,
      r.2)

theorem consumerRun_torn (handler : String → Bool) (ins : List Inbound) :
    (consumerRun handler ins).2 = true ↔ Inbound.recvError ∈ ins := by
  induction ins with
  | nil => simp [consumerRun]
  | cons i rest ih =>
    cases i with
    | recvError => simp [consumerRun]
    | msg b => simpa [consumerRun] using ih

theorem consumerRun_handles (handler : String → Bool) (pre post : List Inbound)
    (b : String) (h : Inbound.recvError ∉ pre) :
    (if handler b then ConsumerEvent.handledOk b else ConsumerEvent.handlerError b) ∈
      (consumerRun handler (pre ++ Inbound.msg b :: post)).1 := by
  induction pre with
  | nil => simp [consumerRun]
  | cons i rest ih =>
    cases i with
    | recvError => exact absurd (List.mem_cons_self _ _) h
    | msg c =>
      simp only [List.cons_append, consumerRun]
      exact List.mem_cons_of_mem _ (ih (fun hm => h (List.mem_cons_of_mem _ hm)))

end Messaging

namespace Gateway

open Messaging

/-- `handleStartBot` from the source: a nil message client answers 503
Service Unavailable; a malformed body (oracle `bodyOk`) answers 400; a
publish error answers 500; success answers 202. -/
def handleStartBot (client : Option MessageClient) (bodyOk : Bool)
    (marshal : Option String) (sendOk : Bool) : Nat :=
  match client with
  | none => 503
  | some mc =>
    if !bodyOk then 400
    else
      match (PublishToQueue mc "queue://commands.start_bot" marshal sendOk).1 with
      | .error _ => 500
      | .ok _ => 202

/-- `handleStopBot` from the source: same shape as `handleStartBot`
with the stop-bot queue. -/
def handleStopBot (client : Option MessageClient) (bodyOk : Bool)
    (marshal : Option String) (sendOk : Bool) : Nat :=
  match client with
  | none => 503
  | some mc =>
    if !bodyOk then 400
    else
      match (PublishToQueue mc "queue://commands.stop_bot" marshal sendOk).1 with
      | .error _ => 500
      | .ok _ => 202

/-- `handleFetchHistory` from the source: same shape with the
fetch-history queue. -/
def handleFetchHistory (client : Option MessageClient) (bodyOk : Bool)
    (marshal : Option String) (sendOk : Bool) : Nat :=
  match client with
  | none => 503
  | some mc =>
    if !bodyOk then 400
    else
      match (PublishToQueue mc "queue://commands.fetch.history" marshal sendOk).1 with
      | .error _ => 500
      | .ok _ => 202

end Gateway

namespace WS

/-- The `{type, data}` wrapper delivered to streaming clients. -/
structure Envelope where
  type : String
  data : String
  deriving DecidableEq, Repr

/-- Modelled from the spec: the websocket Hub's source file is not part
of the repository snapshot (only its callers in `cmd/gateway` and
`internal/gateway` are), so the registry is taken from §4.1 of the
spec: the set of live client connections, identified by connection
ids. -/
structure Hub where
  registry : List Nat
  deriving DecidableEq, Repr

/-- Modelled from the spec: `broadcast(envelope)` delivers a copy of the
envelope to every connection currently registered and to no other;
per-connection delivery can fail (oracle `deliverOk`, covering the
slow-consumer eviction) but the call itself always returns — its type
has no error component.  The result lists each attempted delivery with
its per-connection outcome. -/
def Hub.broadcast (h : Hub) (e : Envelope) (deliverOk : Nat → Bool) :
    List (Nat × Envelope × Bool) :=
  h.registry.map (fun id => (id, e, deliverOk id))

end WS

open Messaging Gateway WS

/-- C1: broadcast attempts delivery of the envelope to exactly the
connections registered at call time — the attempted connection ids are
the registry, and an id receives the envelope precisely when it is
registered — and the call itself carries no error regardless of the
per-connection delivery outcomes. -/
theorem C1_broadcast_delivers_to_registry (h : Hub) (e : Envelope)
    (deliverOk : Nat → Bool) :
    (h.broadcast e deliverOk).map (fun p => p.1) = h.registry ∧
    ∀ id : Nat, id ∈ h.registry ↔ (id, e, deliverOk id) ∈ h.broadcast e deliverOk := by
  constructor
  · simp [Hub.broadcast, Function.comp_def]
  · intro id
    simp only [Hub.broadcast, List.mem_map, Prod.mk.injEq]
    constructor
    · intro hmem
      exact ⟨id, hmem, rfl, trivial, rfl⟩
    · rintro ⟨a, ha, rfl, -, -⟩
      exact ha

/-- C2: publishing while disconnected fails with the not-connected
error and performs no effect at all (nothing serialized, nothing handed
to the transport); publishing a payload the serializer rejects fails
with the encoding error; a successful publish serialized the payload
and handed the resulting frame to the transport.  Both
`PublishToQueue` and `PublishToTopic` are covered. -/
theorem C2_publish_error_cases (mc : MessageClient) (dest : String)
    (marshal : Option String) (sendOk : Bool) :
    (IsConnected mc = false →
      PublishToQueue mc dest marshal sendOk = (Except.error MCError.notConnected, []) ∧
      PublishToTopic mc dest marshal sendOk = (Except.error MCError.notConnected, [])) ∧
    (IsConnected mc = true → marshal = none →
      PublishToQueue mc dest marshal sendOk = (Except.error MCError.encodingError, []) ∧
      PublishToTopic mc dest marshal sendOk = (Except.error MCError.encodingError, [])) ∧
    ((PublishToQueue mc dest marshal sendOk).1 = Except.ok () →
      ∃ data, marshal = some data ∧
        (PublishToQueue mc dest marshal sendOk).2 =
          [PubEffect.marshalled data, PubEffect.sent ⟨dest, "application/json", data⟩]) ∧
    ((PublishToTopic mc dest marshal sendOk).1 = Except.ok () →
      ∃ data, marshal = some data ∧
        (PublishToTopic mc dest marshal sendOk).2 =
          [PubEffect.marshalled data, PubEffect.sent ⟨dest, "application/json", data⟩]) := by
  rcases hc : IsConnected mc <;> rcases marshal with _ | data <;> cases sendOk <;>
    simp [PublishToQueue, PublishToTopic, hc]

/-- Witness for C2 at concrete inputs: a closed client refuses the
publish with no effects, a connected client with an unserializable
payload reports the encoding error, and a successful publish hands the
serialized frame to the transport. -/
theorem C2_publish_error_cases_witness :
    PublishToQueue (Close (initClient "u")) "queue://commands.start_bot" (some "m") true =
      (Except.error MCError.notConnected, []) ∧
    PublishToTopic (initClient "u") "topic://market.data.live" none true =
      (Except.error MCError.encodingError, []) ∧
    (∃ data, (some "m" : Option String) = some data ∧
      (PublishToQueue (initClient "u") "queue://commands.stop_bot" (some "m") true).2 =
        [PubEffect.marshalled data,
          PubEffect.sent ⟨"queue://commands.stop_bot", "application/json", data⟩]) :=
  ⟨((C2_publish_error_cases (Close (initClient "u")) "queue://commands.start_bot"
      (some "m") true).1 (by decide)).1,
   ((C2_publish_error_cases (initClient "u") "topic://market.data.live"
      none true).2.1 (by decide) rfl).2,
   (C2_publish_error_cases (initClient "u") "queue://commands.stop_bot"
      (some "m") true).2.2.1 rfl⟩

/-- C3: in any state reachable from a fresh client, a subscribe on a
topic that already has an active subscription fails with the
already-subscribed error and leaves the client — in particular the
active subscription set — unchanged. -/
theorem C3_duplicate_subscribe_rejected (brokerURL : String) (ops : List Op)
    (t : String) (subOk : Bool)
    (h : t ∈ (run (initClient brokerURL) ops).subscriptions) :
    SubscribeToTopic (run (initClient brokerURL) ops) t subOk =
      (Except.error (MCError.alreadySubscribed t), run (initClient brokerURL) ops) := by
  have hinv := inv_reachable brokerURL ops
  have hc : IsConnected (run (initClient brokerURL) ops) = true := by
    by_contra hfalse
    rw [hinv.2 (Bool.not_eq_true _ ▸ hfalse)] at h
    exact absurd h (List.not_mem_nil t)
  simp [SubscribeToTopic, hc, h]

/-- Witness for C3: after one successful subscribe to `"t"`, a second
subscribe to `"t"` fails with the already-subscribed error and changes
nothing. -/
theorem C3_duplicate_subscribe_rejected_witness :
    SubscribeToTopic (run (initClient "u") [Op.subscribe "t" true]) "t" true =
      (Except.error (MCError.alreadySubscribed "t"),
        run (initClient "u") [Op.subscribe "t" true]) :=
  C3_duplicate_subscribe_rejected "u" [Op.subscribe "t" true] "t" true (by decide)

/-- C4 as stated is false: with an active subscription on `"t"`, when
the transport-level `sub.Unsubscribe()` fails, `Unsubscribe` returns
the transport error and `"t"` is NOT removed from the active set. -/
theorem C4_unsubscribe_counterexample :
    "t" ∈ (run (initClient "u") [Op.subscribe "t" true]).subscriptions ∧
    (Unsubscribe (run (initClient "u") [Op.subscribe "t" true]) "t" false).1 =
      Except.error (MCError.unsubscribeFailed "t") ∧
    "t" ∈ ((Unsubscribe (run (initClient "u") [Op.subscribe "t" true]) "t" false).2).subscriptions :=
  ⟨by decide, rfl, by decide⟩

/-- C4 amended: unsubscribe on a topic with no active subscription
fails with the not-subscribed error and changes nothing; on a topic
with an active subscription it removes the topic when the
transport-level unsubscribe succeeds, and otherwise returns the
transport error leaving the active set unchanged. -/
theorem C4_unsubscribe_behaviour (mc : MessageClient) (t : String) :
    (t ∉ mc.subscriptions → ∀ unsubOk,
      Unsubscribe mc t unsubOk = (Except.error (MCError.notSubscribed t), mc)) ∧
    (t ∈ mc.subscriptions →
      ((Unsubscribe mc t true).1 = Except.ok () ∧
        t ∉ ((Unsubscribe mc t true).2).subscriptions) ∧
      Unsubscribe mc t false = (Except.error (MCError.unsubscribeFailed t), mc)) := by
  constructor
  · intro hmem unsubOk
    simp [Unsubscribe, hmem]
  · intro hmem
    refine ⟨⟨?_, ?_⟩, ?_⟩ <;> simp [Unsubscribe, hmem, List.mem_filter]

/-- Witness for C4's amended claim: never-subscribed topic rejected;
active topic removed when the transport unsubscribe succeeds. -/
theorem C4_unsubscribe_behaviour_witness :
    Unsubscribe (initClient "u") "t" true =
      (Except.error (MCError.notSubscribed "t"), initClient "u") ∧
    ((Unsubscribe (run (initClient "u") [Op.subscribe "t" true]) "t" true).1 =
        Except.ok () ∧
      "t" ∉ ((Unsubscribe (run (initClient "u") [Op.subscribe "t" true]) "t" true).2).subscriptions) :=
  ⟨(C4_unsubscribe_behaviour (initClient "u") "t").1 (by decide) true,
   ((C4_unsubscribe_behaviour (run (initClient "u") [Op.subscribe "t" true]) "t").2
      (by decide)).1⟩

/-- C5: along every sequence of subscribe, unsubscribe, publish,
consumer-teardown and close operations from a fresh client, the active
subscription set never holds the same topic name twice. -/
theorem C5_at_most_one_subscription_per_topic (brokerURL : String) (ops : List Op) :
    (run (initClient brokerURL) ops).subscriptions.Nodup :=
  (inv_reachable brokerURL ops).1

/-- C6: closing the session in any reachable state empties the active
subscription set, leaves the session disconnected, and a second close
changes nothing. -/
theorem C6_close_teardown_idempotent (brokerURL : String) (ops : List Op) :
    (Close (run (initClient brokerURL) ops)).subscriptions = [] ∧
    IsConnected (Close (run (initClient brokerURL) ops)) = false ∧
    Close (Close (run (initClient brokerURL) ops)) =
      Close (run (initClient brokerURL) ops) :=
  ⟨close_subscriptions _ (inv_reachable brokerURL ops),
   isConnected_close _,
   close_close _⟩

/-- C7: the closed state is terminal — after `Close`, no sequence of
the exposed operations (subscribe, unsubscribe, publish, consumer
teardown, close) ever makes `IsConnected` true again. -/
theorem C7_closed_is_terminal (brokerURL : String) (ops1 ops2 : List Op) :
    IsConnected (run (Close (run (initClient brokerURL) ops1)) ops2) = false :=
  isConnected_false_run _ _ (isConnected_close _)

/-- C8 as stated is false: with a message client that exists but whose
session is not connected (no usable transport connection), the three
command handlers answer 500 Internal Server Error, not the 503
service-unavailable condition the claim requires. -/
theorem C8_handlers_counterexample :
    IsConnected (Close (initClient "u")) = false ∧
    handleStartBot (some (Close (initClient "u"))) true (some "m") true = 500 ∧
    handleStopBot (some (Close (initClient "u"))) true (some "m") true = 500 ∧
    handleFetchHistory (some (Close (initClient "u"))) true (some "m") true = 500 := by
  decide

/-- C8 amended: a command request finding no message client at all
(startup connect failed, nil client) is answered with 503
service-unavailable; a request finding a client whose session is not
connected is answered with 500 internal-server-error, the publish
failure path. -/
theorem C8_handlers_unavailable (mc : MessageClient) (bodyOk : Bool)
    (marshal : Option String) (sendOk : Bool) :
    (handleStartBot none bodyOk marshal sendOk = 503 ∧
      handleStopBot none bodyOk marshal sendOk = 503 ∧
      handleFetchHistory none bodyOk marshal sendOk = 503) ∧
    (IsConnected mc = false →
      handleStartBot (some mc) true marshal sendOk = 500 ∧
      handleStopBot (some mc) true marshal sendOk = 500 ∧
      handleFetchHistory (some mc) true marshal sendOk = 500) := by
  constructor
  · exact ⟨rfl, rfl, rfl⟩
  · intro hc
    simp [handleStartBot, handleStopBot, handleFetchHistory, PublishToQueue, hc]

/-- Witness for C8's amended claim at concrete inputs: nil client gives
503, closed session gives 500. -/
theorem C8_handlers_unavailable_witness :
    handleStartBot none true (some "m") true = 503 ∧
    handleStartBot (some (Close (initClient "u"))) true (some "m") true = 500 :=
  ⟨(C8_handlers_unavailable (initClient "u") true (some "m") true).1.1,
   ((C8_handlers_unavailable (Close (initClient "u")) true (some "m") true).2
      (by decide)).1⟩

/-- C9: a handler error never terminates the consumer — the handler is
invoked on a later message even when every earlier message was handled
with an error — and the loop tears down exactly when a transport-level
receive error arrives, at which point the cleanup removes the topic
from the active set. -/
theorem C9_consumer_survives_handler_errors (handler : String → Bool)
    (mc : MessageClient) (topic : String) (pre post : List Inbound) (b : String)
    (h : Inbound.recvError ∉ pre) :
    (if handler b then ConsumerEvent.handledOk b else ConsumerEvent.handlerError b) ∈
      (consumerRun handler (pre ++ Inbound.msg b :: post)).1 ∧
    ((consumerRun handler (pre ++ Inbound.msg b :: post)).2 = true ↔
      Inbound.recvError ∈ post) ∧
    topic ∉ (consumerTeardown mc topic).subscriptions := by
  refine ⟨consumerRun_handles handler pre post b h, ?_, ?_⟩
  · rw [consumerRun_torn]
    simp [h]
  · simp [consumerTeardown, List.mem_filter]

/-- Witness for C9: with a handler that always errors, the handler is
still invoked on the second message, the loop tears down on the final
transport receive error, and the teardown removes the topic. -/
theorem C9_consumer_survives_handler_errors_witness :
    ConsumerEvent.handlerError "b" ∈
      (consumerRun (fun _ => false)
        [Inbound.msg "a", Inbound.msg "b", Inbound.recvError]).1 ∧
    ((consumerRun (fun _ => false)
        [Inbound.msg "a", Inbound.msg "b", Inbound.recvError]).2 = true ↔
      Inbound.recvError ∈ [Inbound.recvError]) ∧
    "t" ∉ (consumerTeardown (initClient "u") "t").subscriptions := by
  have h := C9_consumer_survives_handler_errors (fun _ => false) (initClient "u") "t"
    [Inbound.msg "a"] [Inbound.recvError] "b" (by decide)
  simpa using h

/-- C10: `connect` dials the hard-coded host `"artemis-service"` and
port `"61613"` whatever client state — in particular whatever stored
broker URL — it is run on, so the configured broker URL has no
influence on the contacted endpoint. -/
theorem C10_connect_ignores_broker_url (mc : MessageClient) (dialOk stompOk : Bool) :
    (connect mc dialOk stompOk).2 = DialAddr.mk "artemis-service" "61613" := by
  cases dialOk <;> cases stompOk <;> rfl
